import Mathlib

/-!
Verification development for the lane-runner game core
(src/player.js, src/ParticleManager.js, src/unnamed/part_002 = game.js,
src/unnamed/part_003 = main.js + lavaManager.js, src/unnamed/part_004 =
constants.js).

The JavaScript is shallowly embedded: every numeric quantity is a rational
number (the source only ever combines finite decimal literals with +, -, *,
/, min, max and abs), JS arrays are Lean lists in the same order
(Array.prototype.push appends at the end, pop removes the end, splice with
indexOf removes the first occurrence), and the one transcendental the core
uses, Math.sin in the idle-bounce animation of Player.update, is an
arbitrary parameter sinq so every theorem holds for every interpretation
of it.  THREE.js rendering data (meshes, materials, scene membership,
camera, lights) carries no game-state information and is outside the
model; the userData fields, positions and the active/pool lists that drive
the simulation are modelled exactly.
-/

/-! ### Constants (src/unnamed/part_004 = constants.js) -/

def LANE_WIDTH : ℚ := 2.5

/-- X coordinates for left, center, right lanes: LANES = [-LANE_WIDTH, 0, LANE_WIDTH].
Indexing outside 0..2 never happens in the source (lane values are clamped);
the junk value 0 stands for the out-of-range case. -/
def LANES (i : ℤ) : ℚ :=
  if i = 0 then -LANE_WIDTH else if i = 1 then 0 else if i = 2 then LANE_WIDTH else 0

def PLATFORM_DEPTH : ℚ := 2.0
def PLAYER_START_Z : ℚ := 2
def PLAYER_LANE_CHANGE_COOLDOWN : ℚ := 1.0
def INITIAL_GAME_SPEED : ℚ := 7.0
def MAX_GAME_SPEED : ℚ := 50.0
def GAME_SPEED_INCREASE_RATE : ℚ := 0.35
def GAME_AREA_LENGTH : ℚ := 75

/-! ### Player (src/player.js, the active sprite implementation; the lane /
jump / cooldown logic is identical in the alternate model implementation
src/unnamed/part_001) -/

def PLAYER_HEIGHT : ℚ := 3.5

/-- this.jumpStartY = PLAYER_HEIGHT / 2 (base Y position for the sprite). -/
def Player.jumpStartY : ℚ := PLAYER_HEIGHT / 2

/-- this.jumpApexY = this.jumpStartY + 2.8. -/
def Player.jumpApexY : ℚ := Player.jumpStartY + 2.8

def Player.jumpDuration : ℚ := 1.2
def Player.bounceSpeed : ℚ := 8
def Player.bounceHeight : ℚ := 0.1

/-- The mutable fields of the Player object that the simulation reads or
writes (mesh.position is the THREE.Group position the game logic drives). -/
structure PlayerState where
  targetLane : ℤ
  currentLane : ℤ
  isOnCooldown : Bool
  cooldownTimer : ℚ
  isJumping : Bool
  jumpTimer : ℚ
  bounceTimer : ℚ
  posX : ℚ
  posY : ℚ
  posZ : ℚ

/-- Player.setTargetLane(laneIndex): clamp to [0,2]; only act when not on
cooldown and the clamped lane differs from the current target. -/
def Player.setTargetLane (laneIndex : ℤ) (p : PlayerState) : PlayerState :=
  let newLane : ℤ := max 0 (min 2 laneIndex)
  if p.isOnCooldown = false ∧ newLane ≠ p.targetLane then
    { p with targetLane := newLane, isOnCooldown := true,
             cooldownTimer := PLAYER_LANE_CHANGE_COOLDOWN }
  else p

/-- Player.jump(): can only jump if not already jumping.
playJumpAnimation only logs for the sprite implementation. -/
def Player.jump (p : PlayerState) : PlayerState :=
  if p.isJumping = false then { p with isJumping := true, jumpTimer := 0 } else p

/-- Player.reset(): the state after reset (it assigns every modelled field). -/
def Player.reset : PlayerState :=
  { targetLane := 1, currentLane := 1, isOnCooldown := false, cooldownTimer := 0,
    isJumping := false, jumpTimer := 0, bounceTimer := 0,
    posX := LANES 1, posY := Player.jumpStartY, posZ := PLAYER_START_Z }

/-- Bounce animation phase of Player.update: when not jumping,
bounceTimer += dt * bounceSpeed and y = jumpStartY + |sin bounceTimer| * bounceHeight. -/
def Player.updateBounce (sinq : ℚ → ℚ) (deltaTime : ℚ) (p : PlayerState) : PlayerState :=
  if p.isJumping = false then
    { p with bounceTimer := p.bounceTimer + deltaTime * Player.bounceSpeed,
             posY := Player.jumpStartY
               + |sinq (p.bounceTimer + deltaTime * Player.bounceSpeed)| * Player.bounceHeight }
  else p

/-- Cooldown phase of Player.update: cooldownTimer -= dt, cleared at 0. -/
def Player.updateCooldown (deltaTime : ℚ) (p : PlayerState) : PlayerState :=
  if p.isOnCooldown = true then
    if p.cooldownTimer - deltaTime ≤ 0 then
      { p with isOnCooldown := false, cooldownTimer := 0 }
    else { p with cooldownTimer := p.cooldownTimer - deltaTime }
  else p

/-- Jump physics phase of Player.update: advance jumpTimer, set y on the
parabolic arc, and when jumpTimer ≥ jumpDuration end the jump and snap
y back to jumpStartY (the sprite version also zeroes bounceTimer). -/
def Player.updateJump (deltaTime : ℚ) (p : PlayerState) : PlayerState :=
  if p.isJumping = true then
    let jt := p.jumpTimer + deltaTime
    let jumpProgress := min 1 (jt / Player.jumpDuration)
    let apexDelta := Player.jumpApexY - Player.jumpStartY
    let y := Player.jumpStartY + 4 * apexDelta * (jumpProgress - jumpProgress * jumpProgress)
    if Player.jumpDuration ≤ jt then
      { p with jumpTimer := jt, isJumping := false, posY := Player.jumpStartY,
               bounceTimer := 0 }
    else { p with jumpTimer := jt, posY := y }
  else p

/-- Lane movement phase of Player.update: proportional step toward the target
lane x, clamped to never overshoot; inside the 0.01 epsilon snap exactly to
the target x and set currentLane = targetLane. -/
def Player.updateLane (deltaTime : ℚ) (p : PlayerState) : PlayerState :=
  let targetX := LANES p.targetLane
  let moveSpeed : ℚ := 25.0
  let difference := targetX - p.posX
  if |difference| > 0.01 then
    if |difference * moveSpeed * deltaTime| > |difference| then
      { p with posX := targetX }
    else { p with posX := p.posX + difference * moveSpeed * deltaTime }
  else { p with posX := targetX, currentLane := p.targetLane }

/-- Player.update(deltaTime): bounce, cooldown, jump physics, lane movement,
then pin z to PLAYER_START_Z.  sinq is the interpretation of Math.sin. -/
def Player.update (sinq : ℚ → ℚ) (deltaTime : ℚ) (p : PlayerState) : PlayerState :=
  let p1 := Player.updateBounce sinq deltaTime p
  let p2 := Player.updateCooldown deltaTime p1
  let p3 := Player.updateJump deltaTime p2
  let p4 := Player.updateLane deltaTime p3
  { p4 with posZ := PLAYER_START_Z }

/-! ### JS array primitives: push appends at the end, pop removes the end. -/

def jsPush {α : Type} (x : α) (l : List α) : List α := l ++ [x]

/-- Array.prototype.pop on a non-empty array: the last element and the rest. -/
def jsPop {α : Type} (l : List α) : Option (α × List α) :=
  match l.reverse with
  | [] => none
  | x :: r => some (x, r.reverse)

/-! ### ParticleManager (src/ParticleManager.js)

A particle system is identified by a token (ℕ).  Its per-particle
position/lifetime buffers are pure rendering data (randomized on creation,
on reuse from the pool and on particle respawn) that no game decision ever
reads, so buffer contents are outside the model; which systems are active
(this.particleSystems, i.e. in the scene) and which are pooled (this.pool)
is modelled exactly. -/

structure ParticleManagerState where
  particleSystems : List ℕ
  pool : List ℕ
  nextId : ℕ

/-- ParticleManager.getSystem(position): reuse the last pooled system
(re-randomizing its buffers) or construct a fresh one, then append it to the
active list.  Returns the system together with the new manager state. -/
def ParticleManager.getSystem (pm : ParticleManagerState) : ℕ × ParticleManagerState :=
  match jsPop pm.pool with
  | some (s, rest) =>
      (s, { pm with pool := rest, particleSystems := jsPush s pm.particleSystems })
  | none =>
      (pm.nextId, { pm with nextId := pm.nextId + 1,
                            particleSystems := jsPush pm.nextId pm.particleSystems })

/-- ParticleManager.returnSystem(system): splice the first occurrence out of
the active list (indexOf + splice; a no-op removal when absent) and push the
system onto the pool. -/
def ParticleManager.returnSystem (s : ℕ) (pm : ParticleManagerState) : ParticleManagerState :=
  { pm with particleSystems := pm.particleSystems.erase s, pool := jsPush s pm.pool }

/-- ParticleManager.update(deltaTime) ages and respawns the particles inside
each active system's buffers; it neither activates nor pools any system, so
on the modelled ownership state it is the identity. -/
def ParticleManager.update (_deltaTime : ℚ) (pm : ParticleManagerState) : ParticleManagerState :=
  pm

/-- The while-loop of ParticleManager.reset: repeatedly returnSystem the
first active system until none is active. -/
def ParticleManager.resetLoop : List ℕ → List ℕ → List ℕ
  | [], pool => pool
  | s :: rest, pool => ParticleManager.resetLoop rest (jsPush s pool)

/-- ParticleManager.reset(): move every active system back to the pool. -/
def ParticleManager.reset (pm : ParticleManagerState) : ParticleManagerState :=
  { pm with particleSystems := [],
            pool := ParticleManager.resetLoop pm.particleSystems pm.pool }

/-! ### LavaManager (second file of src/unnamed/part_003 = lavaManager.js) -/

def INITIAL_SPAWN_INTERVAL : ℚ := 4.0
def MIN_SPAWN_INTERVAL : ℚ := 0.9
def SPAWN_INTERVAL_DECREMENT : ℚ := 0.25

/-- One lava hazard mesh: its lane (userData.lane), its world z position and
the attached particle system reference (userData.particleSystem, null when
detached).  The x and y of a spawned hazard are determined by its lane and
the constant LAVA_HEIGHT, so they are not separate state. -/
structure Hazard where
  lane : ℤ
  z : ℚ
  particleSystem : Option ℕ

structure LavaState where
  lavaHazards : List Hazard
  pool : List Hazard
  spawnTimer : ℚ
  spawnInterval : ℚ
  nextSpawnZ : ℚ
  pm : ParticleManagerState

/-- The LavaManager state right after the constructor (lane, z of a fresh
mesh are set by _spawnLava before it is ever read; the particle manager
starts empty). -/
def LavaManager.initial : LavaState :=
  { lavaHazards := [], pool := [],
    spawnTimer := 0, spawnInterval := INITIAL_SPAWN_INTERVAL,
    nextSpawnZ := -GAME_AREA_LENGTH / 2,
    pm := { particleSystems := [], pool := [], nextId := 0 } }

/-- LavaManager._createLavaMesh(): pop a pooled mesh if any, else construct a
new one (whose lane/z/particleSystem fields are junk until _spawnLava
assigns them). -/
def LavaManager.createLavaMesh (st : LavaState) : Hazard × LavaState :=
  match jsPop st.pool with
  | some (lava, rest) => (lava, { st with pool := rest })
  | none => ({ lane := 0, z := 0, particleSystem := none }, st)

/-- LavaManager._spawnLava(targetZ): take a mesh, give it the (randomly
chosen) lane and the target z, attach a particle system from the particle
pool, and append it to the active hazards.  The random lane
Math.floor(Math.random() * 3) is passed in as the parameter lane. -/
def LavaManager.spawnLava (targetZ : ℚ) (lane : ℤ) (st : LavaState) : LavaState :=
  let lavaSt := LavaManager.createLavaMesh st
  let sysPm := ParticleManager.getSystem lavaSt.2.pm
  let lava : Hazard := { lane := lane, z := targetZ, particleSystem := some sysPm.1 }
  { lavaSt.2 with pm := sysPm.2, lavaHazards := jsPush lava lavaSt.2.lavaHazards }

/-- The movement-and-despawn loop of LavaManager.update: the source iterates
the active array from the last index down to 0, moving each hazard (and its
particles) by moveZ and despawning those past playerZ + PLATFORM_DEPTH * 2
(returning the emitter, nulling the reference and pushing the mesh onto the
pool).  Processing the tail first reproduces that order. -/
def LavaManager.moveDespawn (moveZ playerZ : ℚ) (pool0 : List Hazard)
    (pm0 : ParticleManagerState) :
    List Hazard → List Hazard × List Hazard × ParticleManagerState
  | [] => ([], pool0, pm0)
  | lava :: rest =>
    let acc := LavaManager.moveDespawn moveZ playerZ pool0 pm0 rest
    let moved : Hazard := { lava with z := lava.z + moveZ }
    if moved.z > playerZ + PLATFORM_DEPTH * 2 then
      let pm2 := match moved.particleSystem with
        | some s => ParticleManager.returnSystem s acc.2.2
        | none => acc.2.2
      (acc.1, jsPush { moved with particleSystem := none } acc.2.1, pm2)
    else (moved :: acc.1, acc.2.1, acc.2.2)

/-- LavaManager.update(deltaTime, playerZ, currentSpeed): update particles,
advance the spawn timer and spawn when it reaches the interval (resetting
the timer and ramping the interval down toward MIN_SPAWN_INTERVAL), then
move and despawn the active hazards. -/
def LavaManager.update (deltaTime playerZ currentSpeed : ℚ) (lane : ℤ)
    (st : LavaState) : LavaState :=
  let st0 := { st with pm := ParticleManager.update deltaTime st.pm }
  let st1 := { st0 with spawnTimer := st0.spawnTimer + deltaTime }
  let st2 :=
    if st1.spawnTimer ≥ st1.spawnInterval then
      let stS := LavaManager.spawnLava (playerZ - GAME_AREA_LENGTH * 0.9) lane st1
      let stT := { stS with spawnTimer := 0 }
      if stT.spawnInterval > MIN_SPAWN_INTERVAL then
        let newInterval := max MIN_SPAWN_INTERVAL (stT.spawnInterval - SPAWN_INTERVAL_DECREMENT)
        { stT with spawnInterval := newInterval }
      else stT
    else st1
  let acc := LavaManager.moveDespawn (currentSpeed * deltaTime) playerZ st2.pool st2.pm
    st2.lavaHazards
  { st2 with lavaHazards := acc.1, pool := acc.2.1, pm := acc.2.2 }

/-- The forEach of LavaManager.reset: for each active hazard in order, return
its particle system (when attached; the stale reference stays on the pooled
mesh, as in the source) and push the mesh onto the pool. -/
def LavaManager.resetLoop :
    List Hazard → List Hazard → ParticleManagerState → List Hazard × ParticleManagerState
  | [], pool, pm => (pool, pm)
  | lava :: rest, pool, pm =>
    let pm1 := match lava.particleSystem with
      | some s => ParticleManager.returnSystem s pm
      | none => pm
    LavaManager.resetLoop rest (jsPush lava pool) pm1

/-- LavaManager.reset(): pool every active hazard and its particles, clear
the active list, reset the particle manager and re-seed the spawn schedule. -/
def LavaManager.reset (st : LavaState) : LavaState :=
  let poolPm := LavaManager.resetLoop st.lavaHazards st.pool st.pm
  { lavaHazards := [],
    pool := poolPm.1,
    pm := ParticleManager.reset poolPm.2,
    spawnTimer := INITIAL_SPAWN_INTERVAL * 0.75,
    nextSpawnZ := -GAME_AREA_LENGTH / 2,
    spawnInterval := INITIAL_SPAWN_INTERVAL }

/-- JUMP_CLEARANCE_HEIGHT in LavaManager.checkCollision. -/
def JUMP_CLEARANCE_HEIGHT : ℚ := 0.3

/-- The for-of loop of LavaManager.checkCollision: first active hazard whose
lane x is within LANE_WIDTH / 2 * 0.9 of the player x and whose z extent
contains the player z is a hit, unless the player is jumping with
y above jumpStartY + JUMP_CLEARANCE_HEIGHT, in which case the loop
continues with the next hazard. -/
def LavaManager.checkCollisionLoop (px py pz : ℚ) (playerIsJumping : Bool) :
    List Hazard → Bool
  | [] => false
  | lava :: rest =>
    if |px - LANES lava.lane| < LANE_WIDTH / 2 * 0.9 then
      if pz ≥ lava.z - PLATFORM_DEPTH / 2 ∧ pz ≤ lava.z + PLATFORM_DEPTH / 2 then
        if playerIsJumping = true ∧ py > Player.jumpStartY + JUMP_CLEARANCE_HEIGHT then
          LavaManager.checkCollisionLoop px py pz playerIsJumping rest
        else true
      else LavaManager.checkCollisionLoop px py pz playerIsJumping rest
    else LavaManager.checkCollisionLoop px py pz playerIsJumping rest

/-- LavaManager.checkCollision(player): the loop above over the active
hazards, reading the player mesh position, jump flag and jumpStartY. -/
def LavaManager.checkCollision (p : PlayerState) (st : LavaState) : Bool :=
  LavaManager.checkCollisionLoop p.posX p.posY p.posZ p.isJumping st.lavaHazards

/-! ### Game (src/unnamed/part_002 = game.js)

The clock, scene, camera, lights, renderer and the requestAnimationFrame
handle are rendering machinery; the per-frame elapsed time the clock
produces enters as the deltaTime parameter of a tick, and the random lane
Math.floor(Math.random() * 3) of a potential spawn as the lane parameter. -/

def SCORE_RATE : ℚ := 10

structure GameState where
  running : Bool
  gameOver : Bool
  score : ℚ
  currentSpeed : ℚ
  player : PlayerState
  lava : LavaState

/-- Game._stopGameLoop(): stop running and cancel the animation frame. -/
def Game.stopGameLoop (s : GameState) : GameState :=
  { s with running := false }

/-- Game.stop(): stop the loop and mark gameOver; score and speed are
preserved for the game-over display. -/
def Game.stop (s : GameState) : GameState :=
  { Game.stopGameLoop s with gameOver := true }

/-- Game._resetGameState(): reset score, speed, flags, the lava manager and
the player (scene appearance and clock are rendering machinery). -/
def Game.resetGameState (s : GameState) : GameState :=
  { s with score := 0, currentSpeed := INITIAL_GAME_SPEED,
           running := false, gameOver := false,
           lava := LavaManager.reset s.lava, player := Player.reset }

/-- Game.start(): force-stop any loop, reset the whole game state, then set
running and clear gameOver and begin ticking. -/
def Game.start (s : GameState) : GameState :=
  let s1 := Game.resetGameState (Game.stopGameLoop s)
  { s1 with running := true, gameOver := false }

/-- Game.isRunning(): running && !gameOver. -/
def Game.isRunning (s : GameState) : Bool :=
  s.running && !s.gameOver

/-- The collision outcome computed inside a tick of Game._update: the
collision check applied to the player and hazards as updated by that same
tick. -/
def Game.tickHit (sinq : ℚ → ℚ) (deltaTime : ℚ) (lane : ℤ) (s : GameState) : Bool :=
  let speed := min MAX_GAME_SPEED (s.currentSpeed + GAME_SPEED_INCREASE_RATE * deltaTime)
  let player := Player.update sinq deltaTime s.player
  let lava := LavaManager.update deltaTime player.posZ speed lane s.lava
  LavaManager.checkCollision player lava

/-- One call of Game._update with elapsed time deltaTime: exit (cancelling
the loop) unless running and not gameOver; otherwise ramp the speed up to
MAX_GAME_SPEED, update the player and the lava manager, add deltaTime *
SCORE_RATE to the score, and on a collision set gameOver and stop the loop.
Camera, lights and rendering have no effect on the modelled state. -/
def Game.tick (sinq : ℚ → ℚ) (deltaTime : ℚ) (lane : ℤ) (s : GameState) : GameState :=
  if s.running = false ∨ s.gameOver = true then Game.stopGameLoop s
  else
    let speed := min MAX_GAME_SPEED (s.currentSpeed + GAME_SPEED_INCREASE_RATE * deltaTime)
    let player := Player.update sinq deltaTime s.player
    let lava := LavaManager.update deltaTime player.posZ speed lane s.lava
    let s1 := { s with currentSpeed := speed, player := player, lava := lava,
                       score := s.score + deltaTime * SCORE_RATE }
    if LavaManager.checkCollision player lava then
      { s1 with gameOver := true, running := false }
    else s1

/-! ### Pose input (first file of src/unnamed/part_003 = main.js)

The module-level variables restingShoulderY and poseJumpCooldownTimer are
read and written only inside handlePoseUpdate (and re-seeded by
resetGameSession); the requestAnimationFrame loop driving Game._update
never touches them.  An AppState pairs them with the game they control. -/

def JUMP_DETECTION_THRESHOLD : ℚ := 0.06
def POSE_JUMP_COOLDOWN : ℚ := 0.7

structure PoseState where
  restingShoulderY : Option ℚ
  poseJumpCooldownTimer : ℚ

structure AppState where
  game : GameState
  pose : PoseState

/-- resetGameSession(): clear the pose-tracking variables. -/
def resetGameSession (a : AppState) : AppState :=
  { a with pose := { restingShoulderY := none, poseJumpCooldownTimer := 0 } }

/-- handlePoseUpdate(normX, normShoulderY): when the game is running, map
the mirrored horizontal signal to a target lane, decrement the pose-jump
cooldown by the hardcoded 1/60, adopt a resting baseline when none is set,
and with an expired cooldown either trigger a jump (nudging the baseline
and restarting the cooldown) or slowly blend the baseline downward. -/
def handlePoseUpdate (normX normShoulderY : ℚ) (a : AppState) : AppState :=
  if Game.isRunning a.game = true then
    let player := a.game.player
    let mirroredNormX := 1.0 - normX
    let player1 :=
      if mirroredNormX < 0.35 then Player.setTargetLane 0 player
      else if mirroredNormX > 0.65 then Player.setTargetLane 2 player
      else Player.setTargetLane 1 player
    let timer1 :=
      if a.pose.poseJumpCooldownTimer > 0 then a.pose.poseJumpCooldownTimer - 1 / 60
      else a.pose.poseJumpCooldownTimer
    let resting1 :=
      if a.pose.restingShoulderY = none ∧ 0 < normShoulderY ∧ normShoulderY < 1 then
        some normShoulderY
      else a.pose.restingShoulderY
    match resting1 with
    | some r =>
      if timer1 ≤ 0 then
        if r - normShoulderY > JUMP_DETECTION_THRESHOLD then
          { game := { a.game with player := Player.jump player1 },
            pose := { restingShoulderY :=
                        some (normShoulderY + JUMP_DETECTION_THRESHOLD * 0.5),
                      poseJumpCooldownTimer := POSE_JUMP_COOLDOWN } }
        else if normShoulderY > r + JUMP_DETECTION_THRESHOLD * 0.5 ∧
            player1.isJumping = false then
          { game := { a.game with player := player1 },
            pose := { restingShoulderY := some (r * 0.99 + normShoulderY * 0.01),
                      poseJumpCooldownTimer := timer1 } }
        else
          { game := { a.game with player := player1 },
            pose := { restingShoulderY := resting1, poseJumpCooldownTimer := timer1 } }
      else
        { game := { a.game with player := player1 },
          pose := { restingShoulderY := resting1, poseJumpCooldownTimer := timer1 } }
    | none =>
      { game := { a.game with player := player1 },
        pose := { restingShoulderY := resting1, poseJumpCooldownTimer := timer1 } }
  else a

/-- One simulation tick of the whole application: the requestAnimationFrame
loop invokes only Game._update; the pose variables are untouched unless the
asynchronous pose callback fires. -/
def App.advance (sinq : ℚ → ℚ) (deltaTime : ℚ) (lane : ℤ) (a : AppState) : AppState :=
  { a with game := Game.tick sinq deltaTime lane a.game }

/-! ### Helper lemmas: fields each phase of Player.update leaves unchanged -/

@[simp] lemma Player.updateBounce_isJumping (sinq : ℚ → ℚ) (dt : ℚ) (p : PlayerState) :
    (Player.updateBounce sinq dt p).isJumping = p.isJumping := by
  unfold Player.updateBounce; split_ifs <;> rfl

@[simp] lemma Player.updateBounce_jumpTimer (sinq : ℚ → ℚ) (dt : ℚ) (p : PlayerState) :
    (Player.updateBounce sinq dt p).jumpTimer = p.jumpTimer := by
  unfold Player.updateBounce; split_ifs <;> rfl

@[simp] lemma Player.updateBounce_posX (sinq : ℚ → ℚ) (dt : ℚ) (p : PlayerState) :
    (Player.updateBounce sinq dt p).posX = p.posX := by
  unfold Player.updateBounce; split_ifs <;> rfl

@[simp] lemma Player.updateBounce_currentLane (sinq : ℚ → ℚ) (dt : ℚ) (p : PlayerState) :
    (Player.updateBounce sinq dt p).currentLane = p.currentLane := by
  unfold Player.updateBounce; split_ifs <;> rfl

@[simp] lemma Player.updateBounce_targetLane (sinq : ℚ → ℚ) (dt : ℚ) (p : PlayerState) :
    (Player.updateBounce sinq dt p).targetLane = p.targetLane := by
  unfold Player.updateBounce; split_ifs <;> rfl

@[simp] lemma Player.updateCooldown_isJumping (dt : ℚ) (p : PlayerState) :
    (Player.updateCooldown dt p).isJumping = p.isJumping := by
  unfold Player.updateCooldown; split_ifs <;> rfl

@[simp] lemma Player.updateCooldown_jumpTimer (dt : ℚ) (p : PlayerState) :
    (Player.updateCooldown dt p).jumpTimer = p.jumpTimer := by
  unfold Player.updateCooldown; split_ifs <;> rfl

@[simp] lemma Player.updateCooldown_posX (dt : ℚ) (p : PlayerState) :
    (Player.updateCooldown dt p).posX = p.posX := by
  unfold Player.updateCooldown; split_ifs <;> rfl

@[simp] lemma Player.updateCooldown_posY (dt : ℚ) (p : PlayerState) :
    (Player.updateCooldown dt p).posY = p.posY := by
  unfold Player.updateCooldown; split_ifs <;> rfl

@[simp] lemma Player.updateCooldown_currentLane (dt : ℚ) (p : PlayerState) :
    (Player.updateCooldown dt p).currentLane = p.currentLane := by
  unfold Player.updateCooldown; split_ifs <;> rfl

@[simp] lemma Player.updateCooldown_targetLane (dt : ℚ) (p : PlayerState) :
    (Player.updateCooldown dt p).targetLane = p.targetLane := by
  unfold Player.updateCooldown; split_ifs <;> rfl

@[simp] lemma Player.updateJump_posX (dt : ℚ) (p : PlayerState) :
    (Player.updateJump dt p).posX = p.posX := by
  simp only [Player.updateJump]; split_ifs <;> rfl

@[simp] lemma Player.updateJump_currentLane (dt : ℚ) (p : PlayerState) :
    (Player.updateJump dt p).currentLane = p.currentLane := by
  simp only [Player.updateJump]; split_ifs <;> rfl

@[simp] lemma Player.updateJump_targetLane (dt : ℚ) (p : PlayerState) :
    (Player.updateJump dt p).targetLane = p.targetLane := by
  simp only [Player.updateJump]; split_ifs <;> rfl

@[simp] lemma Player.updateLane_isJumping (dt : ℚ) (p : PlayerState) :
    (Player.updateLane dt p).isJumping = p.isJumping := by
  simp only [Player.updateLane]; split_ifs <;> rfl

@[simp] lemma Player.updateLane_jumpTimer (dt : ℚ) (p : PlayerState) :
    (Player.updateLane dt p).jumpTimer = p.jumpTimer := by
  simp only [Player.updateLane]; split_ifs <;> rfl

@[simp] lemma Player.updateLane_posY (dt : ℚ) (p : PlayerState) :
    (Player.updateLane dt p).posY = p.posY := by
  simp only [Player.updateLane]; split_ifs <;> rfl

@[simp] lemma Player.updateLane_targetLane (dt : ℚ) (p : PlayerState) :
    (Player.updateLane dt p).targetLane = p.targetLane := by
  simp only [Player.updateLane]; split_ifs <;> rfl

/-- The jump phase ends the jump exactly when the advanced timer has reached
the duration. -/
lemma Player.updateJump_isJumping (dt : ℚ) (p : PlayerState) :
    (Player.updateJump dt p).isJumping = true ↔
      p.isJumping = true ∧ p.jumpTimer + dt < Player.jumpDuration := by
  simp only [Player.updateJump]
  split_ifs with h1 h2
  · simp [h1, not_lt.mpr h2]
  · simp [h1, not_le.mp h2]
  · simp [h1]

lemma Player.updateJump_jumpTimer_of_jumping (dt : ℚ) (p : PlayerState)
    (h : p.isJumping = true) :
    (Player.updateJump dt p).jumpTimer = p.jumpTimer + dt := by
  simp only [Player.updateJump]; split_ifs <;> simp_all

lemma Player.updateJump_posY_snap (dt : ℚ) (p : PlayerState)
    (h : p.isJumping = true) (h2 : Player.jumpDuration ≤ p.jumpTimer + dt) :
    (Player.updateJump dt p).posY = Player.jumpStartY := by
  simp only [Player.updateJump]; split_ifs <;> simp_all

/-- isJumping after a whole Player.update tick. -/
lemma Player.update_isJumping (sinq : ℚ → ℚ) (dt : ℚ) (p : PlayerState) :
    (Player.update sinq dt p).isJumping = true ↔
      p.isJumping = true ∧ p.jumpTimer + dt < Player.jumpDuration := by
  show (Player.updateLane dt _).isJumping = true ↔ _
  rw [Player.updateLane_isJumping, Player.updateJump_isJumping]
  simp

lemma Player.update_jumpTimer_of_jumping (sinq : ℚ → ℚ) (dt : ℚ) (p : PlayerState)
    (h : p.isJumping = true) :
    (Player.update sinq dt p).jumpTimer = p.jumpTimer + dt := by
  show (Player.updateLane dt _).jumpTimer = _
  rw [Player.updateLane_jumpTimer, Player.updateJump_jumpTimer_of_jumping]
  · simp
  · simp [h]

lemma Player.update_posY_snap (sinq : ℚ → ℚ) (dt : ℚ) (p : PlayerState)
    (h : p.isJumping = true) (h2 : Player.jumpDuration ≤ p.jumpTimer + dt) :
    (Player.update sinq dt p).posY = Player.jumpStartY := by
  show (Player.updateLane dt _).posY = _
  rw [Player.updateLane_posY, Player.updateJump_posY_snap]
  · simp [h]
  · simp [h2]

@[simp] lemma Player.update_targetLane (sinq : ℚ → ℚ) (dt : ℚ) (p : PlayerState) :
    (Player.update sinq dt p).targetLane = p.targetLane := by
  show (Player.updateLane dt _).targetLane = _
  simp

/-- C6: Player.setTargetLane clamps its argument to [0,2], is a no-op while
the lane-change cooldown runs or when the clamped lane equals the current
target, otherwise installs the clamped lane and starts the fixed
1.0-second cooldown; after an effective call any further call is a no-op
(so of two calls in one tick only the first takes effect), and the target
lane stays in {0,1,2}. -/
theorem setTargetLane_contract (lane : ℤ) (p : PlayerState) :
    PLAYER_LANE_CHANGE_COOLDOWN = 1 ∧
    ((p.isOnCooldown = true ∨ max 0 (min 2 lane) = p.targetLane) →
      Player.setTargetLane lane p = p) ∧
    (p.isOnCooldown = false → max 0 (min 2 lane) ≠ p.targetLane →
      (Player.setTargetLane lane p).targetLane = max 0 (min 2 lane) ∧
      (Player.setTargetLane lane p).isOnCooldown = true ∧
      (Player.setTargetLane lane p).cooldownTimer = PLAYER_LANE_CHANGE_COOLDOWN) ∧
    (0 ≤ p.targetLane ∧ p.targetLane ≤ 2 →
      0 ≤ (Player.setTargetLane lane p).targetLane ∧
      (Player.setTargetLane lane p).targetLane ≤ 2) ∧
    (∀ lane2 : ℤ, (Player.setTargetLane lane p).targetLane ≠ p.targetLane →
      Player.setTargetLane lane2 (Player.setTargetLane lane p) =
        Player.setTargetLane lane p) := by
  refine ⟨by norm_num [PLAYER_LANE_CHANGE_COOLDOWN], ?_, ?_, ?_, ?_⟩
  · intro h
    simp only [Player.setTargetLane]
    rcases h with h | h
    · simp [h]
    · simp [h]
  · intro h1 h2
    simp only [Player.setTargetLane]
    simp [h1, h2]
  · intro h
    by_cases hc : p.isOnCooldown = false ∧ max 0 (min 2 lane) ≠ p.targetLane
    · have heff : (Player.setTargetLane lane p).targetLane = max 0 (min 2 lane) := by
        simp only [Player.setTargetLane]
        rw [if_pos hc]
      rw [heff]
      omega
    · have hnop : Player.setTargetLane lane p = p := by
        simp only [Player.setTargetLane]
        rw [if_neg hc]
      rw [hnop]
      exact h
  · intro lane2 hch
    by_cases hc : p.isOnCooldown = false ∧ max 0 (min 2 lane) ≠ p.targetLane
    · have heff : Player.setTargetLane lane p =
          { p with targetLane := max 0 (min 2 lane), isOnCooldown := true,
                   cooldownTimer := PLAYER_LANE_CHANGE_COOLDOWN } := by
        simp only [Player.setTargetLane]
        rw [if_pos hc]
      rw [heff]
      simp [Player.setTargetLane]
    · exfalso
      have hnop : Player.setTargetLane lane p = p := by
        simp only [Player.setTargetLane]
        rw [if_neg hc]
      rw [hnop] at hch
      exact hch rfl

/-- A player that is not jumping never starts jumping through update ticks. -/
lemma Player.foldl_update_not_jumping (sinq : ℚ → ℚ) :
    ∀ (dts : List ℚ) (q : PlayerState), q.isJumping = false →
      (dts.foldl (fun s dt => Player.update sinq dt s) q).isJumping = false := by
  intro dts
  induction dts with
  | nil => intro q h; simpa using h
  | cons dt rest ih =>
    intro q h
    rw [List.foldl_cons]
    apply ih
    rcases hj : (Player.update sinq dt q).isJumping with _ | _
    · rfl
    · exact absurd ((Player.update_isJumping sinq dt q).mp hj).1 (by simp [h])

/-- Along a sequence of update ticks with nonnegative elapsed times, a
jumping player with jumpTimer still short of the duration is still jumping
at the end exactly when the total elapsed time stays short of the
duration. -/
lemma Player.foldl_update_isJumping (sinq : ℚ → ℚ) :
    ∀ (dts : List ℚ) (q : PlayerState), (∀ dt ∈ dts, 0 ≤ dt) →
      q.isJumping = true → q.jumpTimer < Player.jumpDuration →
      ((dts.foldl (fun s dt => Player.update sinq dt s) q).isJumping = false ↔
        Player.jumpDuration ≤ q.jumpTimer + dts.sum) := by
  intro dts
  induction dts with
  | nil =>
    intro q _ hj hlt
    simp [hj, not_le.mpr hlt]
  | cons dt rest ih =>
    intro q hnn hj hlt
    rw [List.foldl_cons, List.sum_cons]
    by_cases hend : Player.jumpDuration ≤ q.jumpTimer + dt
    · have hfalse : (Player.update sinq dt q).isJumping = false := by
        rcases hes : (Player.update sinq dt q).isJumping with _ | _
        · rfl
        · exact absurd ((Player.update_isJumping sinq dt q).mp hes).2 (not_lt.mpr hend)
      have hrest : 0 ≤ rest.sum :=
        List.sum_nonneg fun x hx => hnn x (List.mem_cons_of_mem dt hx)
      have : Player.jumpDuration ≤ q.jumpTimer + (dt + rest.sum) := by linarith
      simp [Player.foldl_update_not_jumping sinq rest _ hfalse, this]
    · have hlt2 : q.jumpTimer + dt < Player.jumpDuration := lt_of_not_ge hend
      have hj2 : (Player.update sinq dt q).isJumping = true :=
        (Player.update_isJumping sinq dt q).mpr ⟨hj, hlt2⟩
      have ht2 : (Player.update sinq dt q).jumpTimer = q.jumpTimer + dt :=
        Player.update_jumpTimer_of_jumping sinq dt q hj
      rw [ih (Player.update sinq dt q) (fun x hx => hnn x (List.mem_cons_of_mem dt hx))
        hj2 (ht2 ▸ hlt2), ht2]
      constructor <;> intro hle <;> linarith

/-- C7: jump() is a no-op while already jumping; a tick with dt ≥ 0 ends a
jump exactly when the accumulated jumpTimer reaches or passes jumpDuration,
snapping the vertical position back to the base height jumpStartY at that
tick; a non-jumping player stays non-jumping; and along any sequence of
ticks with nonnegative dt a fresh jump ends exactly once the total elapsed
time reaches jumpDuration. -/
theorem jump_contract (sinq : ℚ → ℚ) :
    (∀ p : PlayerState, p.isJumping = true → Player.jump p = p) ∧
    (∀ (p : PlayerState) (dt : ℚ), 0 ≤ dt → p.isJumping = true →
      (((Player.update sinq dt p).isJumping = false) ↔
        Player.jumpDuration ≤ p.jumpTimer + dt) ∧
      (Player.jumpDuration ≤ p.jumpTimer + dt →
        (Player.update sinq dt p).posY = Player.jumpStartY)) ∧
    (∀ (p : PlayerState) (dt : ℚ), p.isJumping = false →
      (Player.update sinq dt p).isJumping = false) ∧
    (∀ (p : PlayerState) (dts : List ℚ), (∀ dt ∈ dts, 0 ≤ dt) →
      p.isJumping = true → p.jumpTimer = 0 →
      ((dts.foldl (fun s dt => Player.update sinq dt s) p).isJumping = false ↔
        Player.jumpDuration ≤ dts.sum)) := by
  refine ⟨?_, ?_, ?_, ?_⟩
  · intro p h
    unfold Player.jump
    simp [h]
  · intro p dt _ hj
    constructor
    · rw [show ((Player.update sinq dt p).isJumping = false) ↔
          ¬((Player.update sinq dt p).isJumping = true) by simp,
        Player.update_isJumping]
      simp [hj, not_lt]
    · exact Player.update_posY_snap sinq dt p hj
  · intro p dt h
    rcases hj : (Player.update sinq dt p).isJumping with _ | _
    · rfl
    · exact absurd ((Player.update_isJumping sinq dt p).mp hj).1 (by simp [h])
  · intro p dts hnn hj ht0
    have := Player.foldl_update_isJumping sinq dts p hnn hj
      (by rw [ht0]; norm_num [Player.jumpDuration])
    rw [this, ht0, zero_add]

/-- Lane phase, overshoot-clamp branch: position snaps to the target x but
currentLane is left alone. -/
lemma Player.updateLane_clamp (dt : ℚ) (p : PlayerState)
    (h1 : |LANES p.targetLane - p.posX| > 0.01)
    (h2 : |(LANES p.targetLane - p.posX) * 25.0 * dt| > |LANES p.targetLane - p.posX|) :
    (Player.updateLane dt p).posX = LANES p.targetLane ∧
    (Player.updateLane dt p).currentLane = p.currentLane := by
  simp only [Player.updateLane]
  rw [if_pos h1, if_pos h2]
  exact ⟨rfl, rfl⟩

/-- Lane phase, epsilon branch: position snaps to the target x and
currentLane is set to targetLane. -/
lemma Player.updateLane_snap (dt : ℚ) (p : PlayerState)
    (h1 : ¬(|LANES p.targetLane - p.posX| > 0.01)) :
    (Player.updateLane dt p).posX = LANES p.targetLane ∧
    (Player.updateLane dt p).currentLane = p.targetLane := by
  simp only [Player.updateLane]
  rw [if_neg h1]
  exact ⟨rfl, rfl⟩

/-- C10: when the proportional lane step is clamped for overshoot (the move
distance exceeds the remaining difference, which is still above the 0.01
epsilon), the tick sets positionX exactly to the target lane x while
leaving currentLane behind, so for one tick positionX = LANES targetLane
with currentLane ≠ targetLane; the following tick takes the epsilon branch
and only then sets currentLane = targetLane. -/
theorem lane_overshoot_window (sinq : ℚ → ℚ) (p : PlayerState) (dt dt2 : ℚ)
    (h1 : |LANES p.targetLane - p.posX| > 0.01)
    (h2 : |(LANES p.targetLane - p.posX) * 25.0 * dt| > |LANES p.targetLane - p.posX|)
    (h3 : p.currentLane ≠ p.targetLane) :
    (Player.update sinq dt p).posX = LANES p.targetLane ∧
    (Player.update sinq dt p).currentLane = p.currentLane ∧
    (Player.update sinq dt p).currentLane ≠ (Player.update sinq dt p).targetLane ∧
    (Player.update sinq dt2 (Player.update sinq dt p)).currentLane = p.targetLane ∧
    (Player.update sinq dt2 (Player.update sinq dt p)).posX = LANES p.targetLane := by
  have e1 : (Player.updateJump dt (Player.updateCooldown dt
      (Player.updateBounce sinq dt p))).posX = p.posX := by simp
  have e2 : (Player.updateJump dt (Player.updateCooldown dt
      (Player.updateBounce sinq dt p))).targetLane = p.targetLane := by simp
  have e3 : (Player.updateJump dt (Player.updateCooldown dt
      (Player.updateBounce sinq dt p))).currentLane = p.currentLane := by simp
  have hc := Player.updateLane_clamp dt
    (Player.updateJump dt (Player.updateCooldown dt (Player.updateBounce sinq dt p)))
    (by rw [e1, e2]; exact h1) (by rw [e1, e2]; exact h2)
  have hx : (Player.update sinq dt p).posX = LANES p.targetLane := by
    show (Player.updateLane dt _).posX = _
    rw [hc.1, e2]
  have hcl : (Player.update sinq dt p).currentLane = p.currentLane := by
    show (Player.updateLane dt _).currentLane = _
    rw [hc.2, e3]
  refine ⟨hx, hcl, ?_, ?_, ?_⟩
  · rw [hcl, Player.update_targetLane]
    exact h3
  · have f1 : (Player.updateJump dt2 (Player.updateCooldown dt2
        (Player.updateBounce sinq dt2 (Player.update sinq dt p)))).posX =
        (Player.update sinq dt p).posX := by simp
    have f2 : (Player.updateJump dt2 (Player.updateCooldown dt2
        (Player.updateBounce sinq dt2 (Player.update sinq dt p)))).targetLane =
        p.targetLane := by simp
    have hzero : ¬(|LANES (Player.updateJump dt2 (Player.updateCooldown dt2
        (Player.updateBounce sinq dt2 (Player.update sinq dt p)))).targetLane -
        (Player.updateJump dt2 (Player.updateCooldown dt2
        (Player.updateBounce sinq dt2 (Player.update sinq dt p)))).posX| > 0.01) := by
      rw [f1, f2, hx]
      norm_num
    have hs := Player.updateLane_snap dt2
      (Player.updateJump dt2 (Player.updateCooldown dt2
        (Player.updateBounce sinq dt2 (Player.update sinq dt p)))) hzero
    show (Player.updateLane dt2 _).currentLane = _
    rw [hs.2, f2]
  · have f1 : (Player.updateJump dt2 (Player.updateCooldown dt2
        (Player.updateBounce sinq dt2 (Player.update sinq dt p)))).posX =
        (Player.update sinq dt p).posX := by simp
    have f2 : (Player.updateJump dt2 (Player.updateCooldown dt2
        (Player.updateBounce sinq dt2 (Player.update sinq dt p)))).targetLane =
        p.targetLane := by simp
    have hzero : ¬(|LANES (Player.updateJump dt2 (Player.updateCooldown dt2
        (Player.updateBounce sinq dt2 (Player.update sinq dt p)))).targetLane -
        (Player.updateJump dt2 (Player.updateCooldown dt2
        (Player.updateBounce sinq dt2 (Player.update sinq dt p)))).posX| > 0.01) := by
      rw [f1, f2, hx]
      norm_num
    have hs := Player.updateLane_snap dt2
      (Player.updateJump dt2 (Player.updateCooldown dt2
        (Player.updateBounce sinq dt2 (Player.update sinq dt p)))) hzero
    show (Player.updateLane dt2 _).posX = _
    rw [hs.1, f2]

/-! ### Concrete states used to instantiate the theorems -/

/-- A player frozen mid lane switch: heading from lane 1 to lane 0 and
currently at the center x = 0. -/
def playerMidSwitch : PlayerState :=
  { targetLane := 0, currentLane := 1, isOnCooldown := true, cooldownTimer := 1,
    isJumping := false, jumpTimer := 0, bounceTimer := 0,
    posX := 0, posY := Player.jumpStartY, posZ := PLAYER_START_Z }

/-- C10 witness: with dt = 1 the step from x = 0 toward lane 0 would
overshoot, so the tick clamps to x = LANES 0 while currentLane stays 1; the
next tick sets currentLane = 0. -/
theorem lane_overshoot_window_witness :
    (Player.update (fun _ => 0) 1 playerMidSwitch).posX = LANES playerMidSwitch.targetLane ∧
    (Player.update (fun _ => 0) 1 playerMidSwitch).currentLane = playerMidSwitch.currentLane ∧
    (Player.update (fun _ => 0) 1 playerMidSwitch).currentLane ≠
      (Player.update (fun _ => 0) 1 playerMidSwitch).targetLane ∧
    (Player.update (fun _ => 0) 1 (Player.update (fun _ => 0) 1 playerMidSwitch)).currentLane =
      playerMidSwitch.targetLane ∧
    (Player.update (fun _ => 0) 1 (Player.update (fun _ => 0) 1 playerMidSwitch)).posX =
      LANES playerMidSwitch.targetLane :=
  lane_overshoot_window (fun _ => 0) playerMidSwitch 1 1
    (by norm_num [playerMidSwitch, LANES, LANE_WIDTH, abs])
    (by norm_num [playerMidSwitch, LANES, LANE_WIDTH, abs])
    (by norm_num [playerMidSwitch])

/-- C1: checkCollision returns true exactly when some active hazard
overlaps the player in lane x (within half lane width times the 0.9 margin
factor) and in z (within depth/2 of the hazard z) and is not cleared by a
jump above the clearance threshold over the base height; with no such
hazard it returns false. -/
theorem checkCollision_iff (p : PlayerState) (st : LavaState) :
    LavaManager.checkCollision p st = true ↔
      ∃ lava ∈ st.lavaHazards,
        |p.posX - LANES lava.lane| < LANE_WIDTH / 2 * 0.9 ∧
        (lava.z - PLATFORM_DEPTH / 2 ≤ p.posZ ∧ p.posZ ≤ lava.z + PLATFORM_DEPTH / 2) ∧
        ¬(p.isJumping = true ∧ p.posY > Player.jumpStartY + JUMP_CLEARANCE_HEIGHT) := by
  show LavaManager.checkCollisionLoop p.posX p.posY p.posZ p.isJumping st.lavaHazards = true ↔ _
  induction st.lavaHazards with
  | nil => simp [LavaManager.checkCollisionLoop]
  | cons lava rest ih =>
    rw [LavaManager.checkCollisionLoop]
    split_ifs with hx hz hj
    · rw [ih]
      constructor
      · intro h
        rcases h with ⟨l, hl, hprop⟩
        exact ⟨l, List.mem_cons_of_mem lava hl, hprop⟩
      · intro h
        rcases h with ⟨l, hl, hprop⟩
        rcases List.mem_cons.mp hl with hhead | htail
        · exact absurd hj hprop.2.2
        · exact ⟨l, htail, hprop⟩
    · simp only [true_iff]
      refine ⟨lava, List.mem_cons_self lava rest, hx, ?_, hj⟩
      constructor
      · linarith [hz.1]
      · exact hz.2
    · rw [ih]
      constructor
      · intro h
        rcases h with ⟨l, hl, hprop⟩
        exact ⟨l, List.mem_cons_of_mem lava hl, hprop⟩
      · intro h
        rcases h with ⟨l, hl, hprop⟩
        rcases List.mem_cons.mp hl with hhead | htail
        · subst hhead
          exact absurd ⟨by linarith [hprop.2.1.1], hprop.2.1.2⟩ hz
        · exact ⟨l, htail, hprop⟩
    · rw [ih]
      constructor
      · intro h
        rcases h with ⟨l, hl, hprop⟩
        exact ⟨l, List.mem_cons_of_mem lava hl, hprop⟩
      · intro h
        rcases h with ⟨l, hl, hprop⟩
        rcases List.mem_cons.mp hl with hhead | htail
        · subst hhead
          exact absurd hprop.1 hx
        · exact ⟨l, htail, hprop⟩

/-- A hazard in the center lane exactly at the player z. -/
def hazardCenterLane : Hazard :=
  { lane := 1, z := PLAYER_START_Z, particleSystem := none }

/-- A lava manager state with that single active hazard. -/
def lavaOneHazard : LavaState :=
  { LavaManager.initial with lavaHazards := [hazardCenterLane] }

/-- A player mid lane transition: currentLane 0, already moving toward lane
2, interpolated position x = 0. -/
def playerInterp : PlayerState :=
  { targetLane := 2, currentLane := 0, isOnCooldown := true, cooldownTimer := 1,
    isJumping := false, jumpTimer := 0, bounceTimer := 0,
    posX := 0, posY := Player.jumpStartY, posZ := PLAYER_START_Z }

/-- The same player with x at its current lane's exact coordinate. -/
def playerExact : PlayerState :=
  { playerInterp with posX := LANES 0 }

/-- The player above with different lane bookkeeping and the same position. -/
def playerInterpAlt : PlayerState :=
  { playerInterp with currentLane := 2, targetLane := 0 }

/-- C2 counterexample: two player states agreeing on currentLane, jump
state, y and z but differing in positionX mid-transition get different
collision results, and the result at the interpolated x differs from the
result at the lane-exact x — checkCollision reads the interpolated
mesh position x, not the lane geometry. -/
theorem collision_uses_interpolated_x :
    playerInterp.currentLane = playerExact.currentLane ∧
    playerInterp.isJumping = playerExact.isJumping ∧
    playerInterp.posY = playerExact.posY ∧
    playerInterp.posZ = playerExact.posZ ∧
    playerExact.posX = LANES playerExact.currentLane ∧
    LavaManager.checkCollision playerInterp lavaOneHazard = true ∧
    LavaManager.checkCollision playerExact lavaOneHazard = false := by
  refine ⟨rfl, rfl, rfl, rfl, rfl, ?_, ?_⟩
  · norm_num [LavaManager.checkCollision, LavaManager.checkCollisionLoop,
      playerInterp, lavaOneHazard, hazardCenterLane, LavaManager.initial,
      LANES, LANE_WIDTH, PLATFORM_DEPTH, PLAYER_START_Z,
      Player.jumpStartY, PLAYER_HEIGHT, JUMP_CLEARANCE_HEIGHT, abs]
  · norm_num [LavaManager.checkCollision, LavaManager.checkCollisionLoop,
      playerExact, playerInterp, lavaOneHazard, hazardCenterLane, LavaManager.initial,
      LANES, LANE_WIDTH, PLATFORM_DEPTH, PLAYER_START_Z,
      Player.jumpStartY, PLAYER_HEIGHT, JUMP_CLEARANCE_HEIGHT, abs]

/-- C2 amended: the collision result is a function of the player's
interpolated position (x, y, z) and jump flag alone — the lane bookkeeping
fields are never read, so states agreeing on the position agree on the
result even with different currentLane and targetLane. -/
theorem checkCollision_depends_only_on_position (p q : PlayerState) (st : LavaState)
    (hx : p.posX = q.posX) (hy : p.posY = q.posY) (hz : p.posZ = q.posZ)
    (hj : p.isJumping = q.isJumping) :
    LavaManager.checkCollision p st = LavaManager.checkCollision q st := by
  show LavaManager.checkCollisionLoop p.posX p.posY p.posZ p.isJumping st.lavaHazards = _
  rw [hx, hy, hz, hj]
  rfl

/-- C2 amended witness at a concrete input: same position, different lane
bookkeeping, same collision result. -/
theorem checkCollision_depends_only_on_position_witness :
    LavaManager.checkCollision playerInterp lavaOneHazard =
      LavaManager.checkCollision playerInterpAlt lavaOneHazard :=
  checkCollision_depends_only_on_position playerInterp playerInterpAlt lavaOneHazard
    rfl rfl rfl rfl

@[simp] lemma LavaManager.createLavaMesh_spawnInterval (st : LavaState) :
    (LavaManager.createLavaMesh st).2.spawnInterval = st.spawnInterval := by
  unfold LavaManager.createLavaMesh
  rcases h : jsPop st.pool with _ | ⟨x, rest⟩ <;> simp [h]

@[simp] lemma LavaManager.createLavaMesh_spawnTimer (st : LavaState) :
    (LavaManager.createLavaMesh st).2.spawnTimer = st.spawnTimer := by
  unfold LavaManager.createLavaMesh
  rcases h : jsPop st.pool with _ | ⟨x, rest⟩ <;> simp [h]

@[simp] lemma LavaManager.spawnLava_spawnInterval (z : ℚ) (lane : ℤ) (st : LavaState) :
    (LavaManager.spawnLava z lane st).spawnInterval = st.spawnInterval := by
  simp only [LavaManager.spawnLava]
  exact LavaManager.createLavaMesh_spawnInterval st

@[simp] lemma LavaManager.spawnLava_spawnTimer (z : ℚ) (lane : ℤ) (st : LavaState) :
    (LavaManager.spawnLava z lane st).spawnTimer = st.spawnTimer := by
  simp only [LavaManager.spawnLava]
  exact LavaManager.createLavaMesh_spawnTimer st

/-- What one LavaManager tick does to the spawn interval. -/
lemma LavaManager.update_spawnInterval (dt playerZ speed : ℚ) (lane : ℤ) (st : LavaState) :
    (LavaManager.update dt playerZ speed lane st).spawnInterval =
      if st.spawnTimer + dt ≥ st.spawnInterval then
        (if st.spawnInterval > MIN_SPAWN_INTERVAL then
          max MIN_SPAWN_INTERVAL (st.spawnInterval - SPAWN_INTERVAL_DECREMENT)
         else st.spawnInterval)
      else st.spawnInterval := by
  simp only [LavaManager.update, ParticleManager.update]
  split_ifs with h1 h2 <;> simp_all

/-- One LavaManager tick keeps the spawn interval non-increasing and at or
above the floor. -/
lemma LavaManager.update_spawnInterval_le (dt playerZ speed : ℚ) (lane : ℤ)
    (st : LavaState) (hfloor : MIN_SPAWN_INTERVAL ≤ st.spawnInterval) :
    (LavaManager.update dt playerZ speed lane st).spawnInterval ≤ st.spawnInterval ∧
    MIN_SPAWN_INTERVAL ≤ (LavaManager.update dt playerZ speed lane st).spawnInterval := by
  rw [LavaManager.update_spawnInterval]
  split_ifs with h1 h2
  · constructor
    · apply max_le
      · exact le_of_lt h2
      · norm_num [SPAWN_INTERVAL_DECREMENT]
    · exact le_max_left _ _
  · exact ⟨le_refl _, hfloor⟩
  · exact ⟨le_refl _, hfloor⟩

/-- Across any sequence of LavaManager ticks the spawn interval is
non-increasing and stays at or above the floor. -/
lemma LavaManager.foldl_update_spawnInterval :
    ∀ (ticks : List (ℚ × ℚ × ℚ × ℤ)) (st : LavaState),
      MIN_SPAWN_INTERVAL ≤ st.spawnInterval →
      (ticks.foldl (fun s t => LavaManager.update t.1 t.2.1 t.2.2.1 t.2.2.2 s)
          st).spawnInterval ≤ st.spawnInterval ∧
      MIN_SPAWN_INTERVAL ≤
        (ticks.foldl (fun s t => LavaManager.update t.1 t.2.1 t.2.2.1 t.2.2.2 s)
          st).spawnInterval := by
  intro ticks
  induction ticks with
  | nil => intro st h; exact ⟨le_refl _, h⟩
  | cons t rest ih =>
    intro st h
    rw [List.foldl_cons]
    have hstep := LavaManager.update_spawnInterval_le t.1 t.2.1 t.2.2.1 t.2.2.2 st h
    have hrest := ih (LavaManager.update t.1 t.2.1 t.2.2.1 t.2.2.2 st) hstep.2
    exact ⟨le_trans hrest.1 hstep.1, hrest.2⟩

/-- C8: starting at or above the floor, a LavaManager tick never increases
the spawn interval and never takes it below MIN_SPAWN_INTERVAL; a tick that
fires a spawn sets it to the old interval minus the fixed decrement clamped
at the floor, a tick that does not fire leaves it unchanged, and along any
sequence of ticks the interval is non-increasing and stays at or above the
floor. -/
theorem spawnInterval_ramp (dt playerZ speed : ℚ) (lane : ℤ) (st : LavaState)
    (hfloor : MIN_SPAWN_INTERVAL ≤ st.spawnInterval) :
    ((LavaManager.update dt playerZ speed lane st).spawnInterval ≤ st.spawnInterval ∧
      MIN_SPAWN_INTERVAL ≤ (LavaManager.update dt playerZ speed lane st).spawnInterval) ∧
    (st.spawnTimer + dt ≥ st.spawnInterval →
      (LavaManager.update dt playerZ speed lane st).spawnInterval =
        max MIN_SPAWN_INTERVAL (st.spawnInterval - SPAWN_INTERVAL_DECREMENT)) ∧
    (st.spawnTimer + dt < st.spawnInterval →
      (LavaManager.update dt playerZ speed lane st).spawnInterval = st.spawnInterval) ∧
    (∀ ticks : List (ℚ × ℚ × ℚ × ℤ),
      (ticks.foldl (fun s t => LavaManager.update t.1 t.2.1 t.2.2.1 t.2.2.2 s)
          st).spawnInterval ≤ st.spawnInterval ∧
      MIN_SPAWN_INTERVAL ≤
        (ticks.foldl (fun s t => LavaManager.update t.1 t.2.1 t.2.2.1 t.2.2.2 s)
          st).spawnInterval) := by
  refine ⟨LavaManager.update_spawnInterval_le dt playerZ speed lane st hfloor, ?_, ?_, ?_⟩
  · intro hfire
    rw [LavaManager.update_spawnInterval, if_pos hfire]
    split_ifs with h2
    · rfl
    · have : st.spawnInterval = MIN_SPAWN_INTERVAL := le_antisymm (not_lt.mp h2) hfloor
      rw [this, max_eq_left (by norm_num [MIN_SPAWN_INTERVAL, SPAWN_INTERVAL_DECREMENT])]
  · intro hnofire
    rw [LavaManager.update_spawnInterval, if_neg (not_le.mpr hnofire)]
  · intro ticks
    exact LavaManager.foldl_update_spawnInterval ticks st hfloor

/-- C8 witness: the initial manager state (spawn interval 4.0, timer 0) and
a 5-second tick, which fires a spawn and ramps the interval to 3.75. -/
theorem spawnInterval_ramp_witness :
    (((LavaManager.update 5 2 7 1 LavaManager.initial).spawnInterval ≤
        LavaManager.initial.spawnInterval ∧
      MIN_SPAWN_INTERVAL ≤ (LavaManager.update 5 2 7 1 LavaManager.initial).spawnInterval) ∧
    (LavaManager.initial.spawnTimer + 5 ≥ LavaManager.initial.spawnInterval →
      (LavaManager.update 5 2 7 1 LavaManager.initial).spawnInterval =
        max MIN_SPAWN_INTERVAL (LavaManager.initial.spawnInterval - SPAWN_INTERVAL_DECREMENT)) ∧
    (LavaManager.initial.spawnTimer + 5 < LavaManager.initial.spawnInterval →
      (LavaManager.update 5 2 7 1 LavaManager.initial).spawnInterval =
        LavaManager.initial.spawnInterval) ∧
    (∀ ticks : List (ℚ × ℚ × ℚ × ℤ),
      (ticks.foldl (fun s t => LavaManager.update t.1 t.2.1 t.2.2.1 t.2.2.2 s)
          LavaManager.initial).spawnInterval ≤ LavaManager.initial.spawnInterval ∧
      MIN_SPAWN_INTERVAL ≤
        (ticks.foldl (fun s t => LavaManager.update t.1 t.2.1 t.2.2.1 t.2.2.2 s)
          LavaManager.initial).spawnInterval)) :=
  spawnInterval_ramp 5 2 7 1 LavaManager.initial
    (by norm_num [LavaManager.initial, MIN_SPAWN_INTERVAL, INITIAL_SPAWN_INTERVAL])

/-- The hazard pool after LavaManager.reset is the old pool with every
formerly active hazard appended, in order. -/
lemma LavaManager.resetLoop_pool :
    ∀ (hz : List Hazard) (pool : List Hazard) (pm : ParticleManagerState),
      (LavaManager.resetLoop hz pool pm).1 = pool ++ hz := by
  intro hz
  induction hz with
  | nil => intro pool pm; simp [LavaManager.resetLoop]
  | cons lava rest ih =>
    intro pool pm
    rw [LavaManager.resetLoop]
    rw [ih]
    simp [jsPush]

/-- Anything active or pooled before the ParticleManager reset loop is in
the pool it produces. -/
lemma ParticleManager.resetLoop_mem :
    ∀ (active pool : List ℕ) (sys : ℕ), sys ∈ active ∨ sys ∈ pool →
      sys ∈ ParticleManager.resetLoop active pool := by
  intro active
  induction active with
  | nil => intro pool sys h; rw [ParticleManager.resetLoop]; simpa using h
  | cons s rest ih =>
    intro pool sys h
    rw [ParticleManager.resetLoop]
    apply ih
    rcases h with h | h
    · rcases List.mem_cons.mp h with h | h
      · right; simp [jsPush, h]
      · left; exact h
    · right; simp [jsPush, h]

/-- returnSystem keeps a system somewhere: still active, or in the pool. -/
lemma ParticleManager.returnSystem_mem (s sys : ℕ) (pm : ParticleManagerState)
    (h : sys ∈ pm.particleSystems ∨ sys ∈ pm.pool) :
    sys ∈ (ParticleManager.returnSystem s pm).particleSystems ∨
      sys ∈ (ParticleManager.returnSystem s pm).pool := by
  rcases h with h | h
  · by_cases hs : sys = s
    · right; simp [ParticleManager.returnSystem, jsPush, hs]
    · left
      simp only [ParticleManager.returnSystem]
      exact (List.mem_erase_of_ne hs).mpr h
  · right; simp [ParticleManager.returnSystem, jsPush, h]

/-- The hazard reset loop keeps every particle system somewhere in the
particle manager (active or pooled). -/
lemma LavaManager.resetLoop_pm_mem :
    ∀ (hz : List Hazard) (pool : List Hazard) (pm : ParticleManagerState) (sys : ℕ),
      sys ∈ pm.particleSystems ∨ sys ∈ pm.pool →
      sys ∈ (LavaManager.resetLoop hz pool pm).2.particleSystems ∨
        sys ∈ (LavaManager.resetLoop hz pool pm).2.pool := by
  intro hz
  induction hz with
  | nil => intro pool pm sys h; exact h
  | cons lava rest ih =>
    intro pool pm sys h
    rw [LavaManager.resetLoop]
    rcases hps : lava.particleSystem with _ | s
    · simp only [hps]
      exact ih _ _ sys h
    · simp only [hps]
      exact ih _ _ sys (ParticleManager.returnSystem_mem s sys pm h)

/-- C4 counterexample: a mid-session state with one active hazard carrying
an active particle emitter; Game.stop leaves the lava manager untouched, so
nothing is released to any pool. -/
def lavaActiveEmitter : LavaState :=
  { LavaManager.initial with
      lavaHazards := [{ lane := 1, z := 2, particleSystem := some 0 }],
      pm := { particleSystems := [0], pool := [], nextId := 1 } }

def gameMidSession : GameState :=
  { running := true, gameOver := false, score := 30, currentSpeed := 8,
    player := Player.reset, lava := lavaActiveEmitter }

/-- C4 counterexample theorem: stopping the session releases nothing — the
active hazard and its emitter stay active, and the pools stay empty. -/
theorem stop_releases_nothing :
    (Game.stop gameMidSession).lava = gameMidSession.lava ∧
    (Game.stop gameMidSession).lava.lavaHazards ≠ [] ∧
    (Game.stop gameMidSession).lava.pm.particleSystems ≠ [] ∧
    (Game.stop gameMidSession).lava.pool = [] ∧
    (Game.stop gameMidSession).lava.pm.pool = [] := by
  refine ⟨rfl, ?_, ?_, rfl, rfl⟩ <;>
    simp [Game.stop, Game.stopGameLoop, gameMidSession, lavaActiveEmitter,
      LavaManager.initial]

/-- C4 amended: Game.stop leaves the lava manager (hence both pools)
untouched; it is starting a session — Game.start calls _resetGameState,
which calls LavaManager.reset — that releases every active hazard and every
active particle emitter back to its pool, so the fresh session begins with
no active hazard, no active emitter, every hazard in the hazard pool and
every formerly active emitter in the particle pool. -/
theorem session_reset_releases_pools (s : GameState) (st : LavaState) :
    (Game.stop s).lava = s.lava ∧
    (LavaManager.reset st).lavaHazards = [] ∧
    (LavaManager.reset st).pool = st.pool ++ st.lavaHazards ∧
    (LavaManager.reset st).pm.particleSystems = [] ∧
    (∀ sys ∈ st.pm.particleSystems, sys ∈ (LavaManager.reset st).pm.pool) ∧
    (Game.start s).lava.lavaHazards = [] ∧
    (Game.start s).lava.pm.particleSystems = [] := by
  refine ⟨rfl, rfl, ?_, rfl, ?_, rfl, rfl⟩
  · simp only [LavaManager.reset]
    exact LavaManager.resetLoop_pool st.lavaHazards st.pool st.pm
  · intro sys hsys
    simp only [LavaManager.reset, ParticleManager.reset]
    apply ParticleManager.resetLoop_mem
    exact LavaManager.resetLoop_pm_mem st.lavaHazards st.pool st.pm sys (Or.inl hsys)

/-- C5: within a session the per-tick update turns gameOver from false to
true exactly when that tick's collision check reports a hit (tickHit); a
tick never clears gameOver; Game.stop never clears it (it sets it); only
starting a new session (Game.start, via _resetGameState) returns gameOver
to false. -/
theorem gameOver_transitions (sinq : ℚ → ℚ) (dt : ℚ) (lane : ℤ) (s : GameState) :
    ((Game.tick sinq dt lane s).gameOver =
      (s.gameOver || (s.running && Game.tickHit sinq dt lane s))) ∧
    (Game.stop s).gameOver = true ∧
    (Game.resetGameState s).gameOver = false ∧
    (Game.start s).gameOver = false := by
  refine ⟨?_, rfl, rfl, rfl⟩
  simp only [Game.tick, Game.tickHit, Game.stopGameLoop]
  rcases hr : s.running with _ | _ <;> rcases hg : s.gameOver with _ | _ <;>
    simp [hr, hg] <;> split_ifs with h <;> simp [h]

/-- C9: while running and not gameOver a tick adds exactly dt * SCORE_RATE
to the score (strictly increasing it when dt > 0); once gameOver is true a
tick leaves the score unchanged, and Game.stop leaves it unchanged.  A tick
whose collision check reports no hit keeps the session running with
gameOver false, so n consecutive collision-free ticks of 1.0 s add exactly
n * SCORE_RATE. -/
theorem score_progression (sinq : ℚ → ℚ) (dt : ℚ) (lane : ℤ) (s : GameState) :
    (s.running = true → s.gameOver = false →
      (Game.tick sinq dt lane s).score = s.score + dt * SCORE_RATE) ∧
    (0 < dt → s.running = true → s.gameOver = false →
      s.score < (Game.tick sinq dt lane s).score) ∧
    (s.gameOver = true → (Game.tick sinq dt lane s).score = s.score) ∧
    (s.running = true → s.gameOver = false → Game.tickHit sinq dt lane s = false →
      (Game.tick sinq dt lane s).running = true ∧
      (Game.tick sinq dt lane s).gameOver = false) ∧
    (Game.stop s).score = s.score := by
  have key : s.running = true → s.gameOver = false →
      (Game.tick sinq dt lane s).score = s.score + dt * SCORE_RATE := by
    intro hr hg
    simp only [Game.tick]
    rw [if_neg (by simp [hr, hg])]
    split_ifs <;> rfl
  refine ⟨key, ?_, ?_, ?_, rfl⟩
  · intro hdt hr hg
    rw [key hr hg]
    have : 0 < dt * SCORE_RATE := mul_pos hdt (by norm_num [SCORE_RATE])
    linarith
  · intro hg
    simp only [Game.tick]
    rw [if_pos (Or.inr hg)]
    rfl
  · intro hr hg hhit
    simp only [Game.tickHit] at hhit
    simp only [Game.tick]
    rw [if_neg (by simp [hr, hg]), if_neg (by simp [hhit])]
    exact ⟨hr, hg⟩

/-- A running game with no hazards, as right after a session start. -/
def gameFresh : GameState :=
  { running := true, gameOver := false, score := 0,
    currentSpeed := INITIAL_GAME_SPEED, player := Player.reset,
    lava := LavaManager.initial }

/-- The application right after a pose jump started the cooldown. -/
def appCooldownStarted : AppState :=
  { game := gameFresh,
    pose := { restingShoulderY := some 0.5,
              poseJumpCooldownTimer := POSE_JUMP_COOLDOWN } }

/-- C3 counterexample: a cooldown started at POSE_JUMP_COOLDOWN is still at
its full positive value after a simulation tick advancing that much
simulated time with no pose sample delivered — the tick does not decrement
it, so it has not expired. -/
theorem pose_cooldown_ignores_ticks :
    (0:ℚ) < POSE_JUMP_COOLDOWN ∧
    (App.advance (fun _ => 0) POSE_JUMP_COOLDOWN 1
        appCooldownStarted).pose.poseJumpCooldownTimer = POSE_JUMP_COOLDOWN := by
  constructor
  · norm_num [POSE_JUMP_COOLDOWN]
  · rfl

/-- C3 amended: the pose-jump cooldown is decremented (by the hardcoded
1/60 s) only when a pose sample is processed while the session is running;
a simulation tick without a pose sample leaves the pose state unchanged,
and a pose callback with the game not running changes nothing — so the
cooldown expires only after enough processed pose samples, not after
simulated time. -/
theorem pose_cooldown_per_sample :
    (∀ (sinq : ℚ → ℚ) (dt : ℚ) (lane : ℤ) (a : AppState),
      (App.advance sinq dt lane a).pose = a.pose) ∧
    (∀ (normX normShoulderY : ℚ) (a : AppState), Game.isRunning a.game = true →
      0 < a.pose.poseJumpCooldownTimer - 1 / 60 →
      (handlePoseUpdate normX normShoulderY a).pose.poseJumpCooldownTimer =
        a.pose.poseJumpCooldownTimer - 1 / 60) ∧
    (∀ (normX normShoulderY : ℚ) (a : AppState), Game.isRunning a.game = false →
      handlePoseUpdate normX normShoulderY a = a) := by
  refine ⟨fun sinq dt lane a => rfl, ?_, ?_⟩
  · intro normX normShoulderY a hrun hpos
    simp only [handlePoseUpdate]
    rw [if_pos hrun]
    rw [if_pos (show a.pose.poseJumpCooldownTimer > 0 by linarith)]
    rcases hres : (if a.pose.restingShoulderY = none ∧ 0 < normShoulderY ∧ normShoulderY < 1
        then some normShoulderY else a.pose.restingShoulderY) with _ | r
    · simp only [hres]
    · simp only [hres]
      rw [if_neg (not_le.mpr hpos)]
  · intro normX normShoulderY a hrun
    simp only [handlePoseUpdate]
    rw [if_neg (by simp [hrun])]
